import Mathlib

/-!
Verification development for the batch CSV ingestion pipeline of `src/app.py`
(a Flask + Telethon + pandas web application).

The embedding below models, faithfully to the Python source:
  * the Python string operations used by the filename sanitizer
    (`url.split('/')[-1].split('?')[0]`, the `isalnum`-based filter, `strip()`),
    at `src/app.py:210-213`;
  * `add_log` (`src/app.py:33-40`);
  * `_upload_file_async`'s connection guard and outcome (`src/app.py:125-162`);
  * the batch orchestrator `_run_csv_process_async` (`src/app.py:165-254`).

External collaborators (pandas' `read_csv`, the HTTP client, Telethon's
`send_file`) are modelled as oracles: the parse result is an input
(`Except String DataFrame`), and per-item fetch / send outcomes are input
functions `Nat → FetchOutcome` / `Nat → SendOutcome`.  The orchestrator's
own control flow — the per-item try boundary, the skip test, the progress
writes, the caption computation, the return value — is translated directly
from the source.
-/

set_option maxHeartbeats 1000000

namespace WebApp

/-! ### Python string primitives (on explicit character lists) -/

/-- Python `s.strip()`: remove leading and trailing whitespace. -/
def pyStrip (cs : List Char) : List Char :=
  ((cs.dropWhile Char.isWhitespace).reverse.dropWhile Char.isWhitespace).reverse

/-- Python `s.split('/')[-1]`: the suffix after the final `'/'`
(the whole string when no `'/'` occurs). -/
def lastSegment (cs : List Char) : List Char :=
  (cs.reverse.takeWhile (fun c => c ≠ '/')).reverse

/-- Python `s.split('?')[0]`: the prefix before the first `'?'`
(the whole string when no `'?'` occurs). -/
def beforeQuery (cs : List Char) : List Char :=
  cs.takeWhile (fun c => c ≠ '?')

/-- The character filter of `src/app.py:211`:
`c.isalnum() or c in ('.', '_', '-')`. -/
def keepChar (c : Char) : Bool :=
  c.isAlphanum || c == '.' || c == '_' || c == '-'

/-- The pure part of the filename sanitizer (`src/app.py:210-211`):
last path segment, then strip the query string, then keep only
alphanumerics plus `.`, `_`, `-`, then trim whitespace. -/
def sanitizeCoreList (cs : List Char) : List Char :=
  pyStrip ((beforeQuery (lastSegment cs)).filter keepChar)

/-- String-level wrapper of `sanitizeCoreList`. -/
def sanitizeCore (s : String) : String := String.mk (sanitizeCoreList s.data)

/-- The decimal digit character for `d < 10`. -/
def digitChar (d : Nat) : Char := Char.ofNat (48 + d)

/-- Helper for `decimal`: accumulate decimal digits, least significant last. -/
def decimalAux (n : Nat) (acc : List Char) : List Char :=
  if h : n = 0 then acc
  else decimalAux (n / 10) (digitChar (n % 10) :: acc)
termination_by n
decreasing_by exact Nat.div_lt_self (Nat.pos_of_ne_zero h) (by decide)

/-- Python `str(n)` for a non-negative integer: decimal rendering. -/
def decimal (n : Nat) : List Char := if n = 0 then ['0'] else decimalAux n []

/-- The fallback filename of `src/app.py:213`:
`f"csv_dl_\x7bint(time.time())\x7d_\x7bindex\x7d"`, with the timestamp and
row index passed in explicitly. -/
def fallbackName (tnow idx : Nat) : String :=
  String.mk (("csv_dl_").data ++ decimal tnow ++ '_' :: decimal idx)

/-- The complete filename derivation of `src/app.py:210-213`: the sanitized
URL when non-empty, otherwise the timestamp/row-index fallback name. -/
def sanitizeFilename (url : String) (tnow idx : Nat) : String :=
  if sanitizeCore url = "" then fallbackName tnow idx else sanitizeCore url

/-! ### Log buffer (`add_log`, `src/app.py:33-40`) -/

/-- The formatted log line `f"[\x7btimestamp\x7d] \x7bmessage\x7d"`. -/
def logEntry (timestamp message : String) : String :=
  ("[") ++ timestamp ++ ("] ") ++ message

/-- `add_log` (`src/app.py:33-40`): prepend the formatted entry
(`insert(0, ...)`) and truncate to the first 100 entries (`[:100]`). -/
def add_log (logs : List String) (timestamp message : String) : List String :=
  (logEntry timestamp message :: logs).take 100

/-! ### Data model of a parsed manifest -/

/-- One cell of the parsed table.  `pd.read_csv` yields strings for textual
cells and non-string values otherwise (`NaN` for empty cells, numbers for
numeric cells); a non-string cell is carried together with its Python
`str()` rendering (`str(float('nan')) = "nan"`). -/
inductive Cell where
  | str (s : String)
  | nonStr (rendering : String)
deriving DecidableEq

/-- Python `str(cell)`. -/
def pyStr : Cell → String
  | .str s => s
  | .nonStr r => r

/-- One data row of the parsed manifest.  Only the `link` and `caption`
cells are ever read by the orchestrator (`src/app.py:204,226`); the cells
are meaningful only when the corresponding column exists. -/
structure CsvRow where
  link : Cell
  caption : Cell
deriving DecidableEq

/-- The result of `pd.read_csv(BytesIO(csv_file_bytes), delimiter=';')`:
which of the two relevant columns exist, and the ordered data rows. -/
structure DataFrame where
  hasLinkCol : Bool
  hasCaptionCol : Bool
  rows : List CsvRow
deriving DecidableEq

/-! ### Session state and the publisher (`_upload_file_async`) -/

/-- The state consulted by both the orchestrator (`src/app.py:166`) and the
publisher guard (`src/app.py:126`): the Flask session flag
`session['session_active']`, whether `telethon_client` is non-`None`, and
`telethon_client.is_connected()`. -/
structure TelethonState where
  sessionActive : Bool
  clientSome : Bool
  clientConnected : Bool
deriving DecidableEq

/-- `session.get('session_active') and telethon_client and
telethon_client.is_connected()` — the exact condition of `src/app.py:166`,
whose negation is also the publisher guard of `src/app.py:126`. -/
def clientReady (st : TelethonState) : Bool :=
  st.sessionActive && st.clientSome && st.clientConnected

/-- Outcome of `telethon_client.send_file` inside `_upload_file_async`,
as an oracle: success, or one of the caught exception classes
(`src/app.py:149-160`). -/
inductive SendOutcome where
  | ok
  | mediaEmpty
  | notParticipant
  | floodWait (secs : Nat)
  | otherExn (msg : String)
deriving DecidableEq

/-- Observable result of one `_upload_file_async` call: the returned
boolean, and whether `send_file` was reached at all. -/
structure UploadResult where
  success : Bool
  sendAttempted : Bool
deriving DecidableEq

/-- `_upload_file_async` (`src/app.py:125-162`).  The guard at line 126
returns `False` before any transfer when the session is not active or the
client is absent/disconnected; otherwise `send_file` is attempted and every
exception is caught, yielding `False`. -/
def upload_file_async (st : TelethonState) (send : SendOutcome) : UploadResult :=
  if !(clientReady st) then { success := false, sendAttempted := false }
  else
    match send with
    | .ok => { success := true, sendAttempted := true }
    | _ => { success := false, sendAttempted := true }

/-! ### The batch orchestrator (`_run_csv_process_async`) -/

/-- Outcome of the `requests.get` / file-write block for one item, as an
oracle: success, a `requests.exceptions.RequestException`
(`src/app.py:234`), or any other exception (`src/app.py:237`). -/
inductive FetchOutcome where
  | ok
  | requestExn (msg : String)
  | otherExn (msg : String)
deriving DecidableEq

/-- Observable trace of one loop iteration of `src/app.py:199-239`.
For a skipped row (`src/app.py:205-207`) no filename is computed and no
fetch or publish happens, so the remaining fields are `false`/`""`/`none`. -/
structure ItemTrace where
  idx : Nat
  skipped : Bool
  filename : String
  fetchAttempted : Bool
  fetchOk : Bool
  publishCalled : Bool
  uploadOk : Bool
  caption : Option String
deriving DecidableEq

/-- The skip test of `src/app.py:205`:
`not isinstance(url_from_row, str) or not url_from_row.strip()`. -/
def blankLink : Cell → Bool
  | .str s => (pyStrip s.data).isEmpty
  | .nonStr _ => true

/-- The loop body of `src/app.py:199-239` for the row at (0-based)
position `idx`.  The caption (`str(row_data.get('caption', ''))`,
`src/app.py:226`) is computed only on the upload path; it is the cell's
`str()` rendering when the `caption` column exists and `''` otherwise. -/
def processItem (st : TelethonState) (tnow : Nat) (hasCaptionCol : Bool)
    (fetch : Nat → FetchOutcome) (send : Nat → SendOutcome)
    (idx : Nat) (row : CsvRow) : ItemTrace :=
  if blankLink row.link then
    { idx := idx, skipped := true, filename := "", fetchAttempted := false,
      fetchOk := false, publishCalled := false, uploadOk := false, caption := none }
  else
    let filename := sanitizeFilename (pyStr row.link) tnow idx
    match fetch idx with
    | .ok =>
        if clientReady st then
          let cap := if hasCaptionCol then pyStr row.caption else ""
          let ur := upload_file_async st (send idx)
          { idx := idx, skipped := false, filename := filename,
            fetchAttempted := true, fetchOk := true, publishCalled := true,
            uploadOk := ur.success, caption := some cap }
        else
          { idx := idx, skipped := false, filename := filename,
            fetchAttempted := true, fetchOk := true, publishCalled := false,
            uploadOk := false, caption := none }
    | .requestExn _ =>
        { idx := idx, skipped := false, filename := filename,
          fetchAttempted := true, fetchOk := false, publishCalled := false,
          uploadOk := false, caption := none }
    | .otherExn _ =>
        { idx := idx, skipped := false, filename := filename,
          fetchAttempted := true, fetchOk := false, publishCalled := false,
          uploadOk := false, caption := none }

/-- The `for index, row_data in dataframe.iterrows()` loop
(`src/app.py:199`), processing rows in order with their 0-based index. -/
def processRows (st : TelethonState) (tnow : Nat) (hasCaptionCol : Bool)
    (fetch : Nat → FetchOutcome) (send : Nat → SendOutcome) :
    Nat → List CsvRow → List ItemTrace
  | _, [] => []
  | i, row :: rest =>
      processItem st tnow hasCaptionCol fetch send i row ::
        processRows st tnow hasCaptionCol fetch send (i + 1) rest

/-- The sequence of `session['csv_overall_progress']` writes of a run that
reaches the processing loop with `n` rows: `0` at `src/app.py:171`, then
`(item_num / total_csv_items) * 100` at line 201 for `item_num = 1..n`,
then `100` at line 243. -/
def progressList (n : Nat) : List Rat :=
  (0 : Rat) ::
    ((List.range n).map (fun i : Nat => 100 * ((i : Rat) + 1) / (n : Rat)) ++ [100])

/-- The two fatal-error classes of the run: a `read_csv` exception
(`src/app.py:178-182`) or a missing `link` column (`src/app.py:184-188`). -/
inductive RunError where
  | parseError (msg : String)
  | missingLinkColumn
deriving DecidableEq

/-- Observable result of one `_run_csv_process_async` call: the returned
boolean, every write to `session['csv_overall_progress']` in order, one
`ItemTrace` per executed loop iteration, the `successful_uploads` counter,
and which one-time notices were emitted. -/
structure RunResult where
  retVal : Bool
  progressTrace : List Rat
  items : List ItemTrace
  successfulUploads : Nat
  downloadOnlyNotice : Bool
  emptyNotice : Bool
  runError : Option RunError
deriving DecidableEq

/-- `_run_csv_process_async` (`src/app.py:165-254`).  The progress writes
are: `0` at line 171; `-1` at line 181 or 187 followed by `return False`;
for a non-empty run, `(item_num / total) * 100` at line 201 once per row
(before the skip test) and `100` at line 243 followed by `return True`.
Python's float arithmetic on these quotients is modelled exactly in `ℚ`.
No exception escapes the loop: the per-item `try` catches
`requests.exceptions.RequestException` and every other `Exception`
(`src/app.py:234-239`), and `_upload_file_async` catches internally. -/
def run_csv_process_async (st : TelethonState) (tnow : Nat)
    (parse : Except String DataFrame)
    (fetch : Nat → FetchOutcome) (send : Nat → SendOutcome) : RunResult :=
  let notice := !(clientReady st)
  match parse with
  | .error msg =>
      { retVal := false, progressTrace := [0, -1], items := [],
        successfulUploads := 0, downloadOnlyNotice := notice,
        emptyNotice := false, runError := some (.parseError msg) }
  | .ok df =>
      if !df.hasLinkCol then
        { retVal := false, progressTrace := [0, -1], items := [],
          successfulUploads := 0, downloadOnlyNotice := notice,
          emptyNotice := false, runError := some .missingLinkColumn }
      else
        let n := df.rows.length
        if n = 0 then
          { retVal := true, progressTrace := [0], items := [],
            successfulUploads := 0, downloadOnlyNotice := notice,
            emptyNotice := true, runError := none }
        else
          let items := processRows st tnow df.hasCaptionCol fetch send 0 df.rows
          { retVal := true,
            progressTrace := progressList n,
            items := items,
            successfulUploads := (items.filter (fun t => t.uploadOk)).length,
            downloadOnlyNotice := notice, emptyNotice := false,
            runError := none }

/-!
## Helper lemmas
-/

theorem mem_pyStrip {c : Char} {cs : List Char} (h : c ∈ pyStrip cs) : c ∈ cs := by
  unfold pyStrip at h
  rw [List.mem_reverse] at h
  have h2 := List.dropWhile_subset Char.isWhitespace h
  rw [List.mem_reverse] at h2
  exact List.dropWhile_subset Char.isWhitespace h2

theorem mem_sanitizeCoreList_keep {c : Char} {cs : List Char}
    (h : c ∈ sanitizeCoreList cs) : keepChar c = true := by
  unfold sanitizeCoreList at h
  exact List.of_mem_filter (mem_pyStrip h)

theorem keepChar_not_ws {c : Char} (h : keepChar c = true) : c.isWhitespace = false := by
  by_contra hw
  rw [Bool.not_eq_false] at hw
  rcases by simpa [Char.isWhitespace] using hw with ((h1 | h1) | h1) | h1 <;>
    · subst h1; exact absurd h (by decide)

theorem keepChar_ne_slash {c : Char} (h : keepChar c = true) : c ≠ '/' := by
  intro h1; subst h1; exact absurd h (by decide)

theorem keepChar_ne_query {c : Char} (h : keepChar c = true) : c ≠ '?' := by
  intro h1; subst h1; exact absurd h (by decide)

theorem dropWhile_eq_self_of_none (l : List Char) (p : Char → Bool)
    (h : ∀ c ∈ l, p c = false) : l.dropWhile p = l := by
  cases l with
  | nil => rfl
  | cons a as => rw [List.dropWhile_cons, h a (by simp)]; simp

/-- A string all of whose characters survive the sanitizer filter is a fixed
point of the sanitizer core: it has no `/`, no `?`, and no whitespace. -/
theorem sanitizeCoreList_fixed {cs : List Char}
    (h : ∀ c ∈ cs, keepChar c = true) : sanitizeCoreList cs = cs := by
  have hseg : lastSegment cs = cs := by
    unfold lastSegment
    rw [List.takeWhile_eq_self_iff.mpr, List.reverse_reverse]
    intro x hx
    simp only [ne_eq, decide_eq_true_eq]
    exact keepChar_ne_slash (h x (List.mem_reverse.mp hx))
  have hq : beforeQuery cs = cs := by
    unfold beforeQuery
    rw [List.takeWhile_eq_self_iff.mpr]
    intro x hx
    simp only [ne_eq, decide_eq_true_eq]
    exact keepChar_ne_query (h x hx)
  have hf : cs.filter keepChar = cs := List.filter_eq_self.mpr h
  have hs : pyStrip cs = cs := by
    unfold pyStrip
    rw [dropWhile_eq_self_of_none _ _ (fun c hc => keepChar_not_ws (h c hc))]
    rw [dropWhile_eq_self_of_none _ _ (fun c hc => keepChar_not_ws (h c (List.mem_reverse.mp hc)))]
    exact List.reverse_reverse cs
  unfold sanitizeCoreList
  rw [hseg, hq, hf, hs]

theorem sanitizeCoreList_idem (cs : List Char) :
    sanitizeCoreList (sanitizeCoreList cs) = sanitizeCoreList cs :=
  sanitizeCoreList_fixed (fun _ hc => mem_sanitizeCoreList_keep hc)

theorem digitChar_isDigit {d : Nat} (hd : d < 10) : (digitChar d).isDigit = true := by
  unfold digitChar
  interval_cases d <;> decide

theorem keepChar_of_isDigit {c : Char} (h : c.isDigit = true) : keepChar c = true := by
  unfold keepChar Char.isAlphanum
  rw [h]
  simp

theorem mem_decimalAux (n : Nat) (acc : List Char) (c : Char)
    (h : c ∈ decimalAux n acc) : c.isDigit = true ∨ c ∈ acc := by
  induction n using Nat.strong_induction_on generalizing acc with
  | _ n ih =>
    by_cases h0 : n = 0
    · subst h0
      rw [decimalAux] at h
      simp at h
      exact Or.inr h
    · rw [decimalAux] at h
      simp only [h0, dite_false] at h
      rcases ih (n / 10) (Nat.div_lt_self (Nat.pos_of_ne_zero h0) (by decide)) _ h with hd | hm
      · exact Or.inl hd
      · rcases List.mem_cons.mp hm with rfl | h2
        · exact Or.inl (digitChar_isDigit (Nat.mod_lt _ (by decide)))
        · exact Or.inr h2

theorem mem_decimal_keep {n : Nat} {c : Char} (h : c ∈ decimal n) : keepChar c = true := by
  unfold decimal at h
  by_cases h0 : n = 0
  · simp [h0] at h
    subst h
    decide
  · simp only [h0, ite_false] at h
    rcases mem_decimalAux n [] c h with hd | hm
    · exact keepChar_of_isDigit hd
    · simp at hm

theorem mem_fallback_keep {t i : Nat} {c : Char}
    (h : c ∈ (fallbackName t i).data) : keepChar c = true := by
  have hdata : (fallbackName t i).data =
      ("csv_dl_").data ++ (decimal t ++ '_' :: decimal i) := by
    simp [fallbackName, List.append_assoc]
  rw [hdata] at h
  have hlit : ∀ x ∈ ("csv_dl_").data, keepChar x = true := by decide
  rcases List.mem_append.mp h with h | h
  · exact hlit c h
  · rcases List.mem_append.mp h with h | h
    · exact mem_decimal_keep h
    · rcases List.mem_cons.mp h with rfl | h
      · decide
      · exact mem_decimal_keep h

/-- The fallback name `csv_dl_<t>_<i>` consists only of sanitizer-clean
characters, so it is a fixed point of the sanitizer. -/
theorem sanitizeCore_fallback (t i : Nat) :
    sanitizeCore (fallbackName t i) = fallbackName t i := by
  unfold sanitizeCore
  rw [sanitizeCoreList_fixed (fun c hc => mem_fallback_keep hc)]

theorem fallbackName_ne_empty (t i : Nat) : fallbackName t i ≠ "" := by
  intro h
  have := congrArg String.data h
  rw [fallbackName] at this
  simp at this

theorem sanitizeCore_idem (s : String) : sanitizeCore (sanitizeCore s) = sanitizeCore s := by
  unfold sanitizeCore
  rw [sanitizeCoreList_idem]

/-!
## Claim theorems
-/

/-- C8: the filename sanitizer (last path segment after the final slash,
then text before the first question mark, then keep only alphanumerics plus
`.`, `_`, `-`, then trim) is idempotent on already-sanitized input: for
every URL and every fallback seed (timestamp and row index), if the
sanitized result is non-empty then sanitizing it again leaves it
unchanged. -/
theorem sanitize_filename_idempotent (url : String) (tnow idx : Nat)
    (hne : sanitizeFilename url tnow idx ≠ "") :
    sanitizeFilename (sanitizeFilename url tnow idx) tnow idx =
      sanitizeFilename url tnow idx := by
  clear hne
  unfold sanitizeFilename
  by_cases hc : sanitizeCore url = ""
  · rw [if_pos hc, sanitizeCore_fallback, if_neg (fallbackName_ne_empty tnow idx)]
  · rw [if_neg hc, sanitizeCore_idem, if_neg hc]

/-- Witness for C8 at the spec's own example URL. -/
theorem sanitize_filename_idempotent_witness :
    sanitizeFilename ("https://host/path/name.ext?x=1") 0 0 ≠ "" ∧
    sanitizeFilename (sanitizeFilename ("https://host/path/name.ext?x=1") 0 0) 0 0 =
      sanitizeFilename ("https://host/path/name.ext?x=1") 0 0 :=
  ⟨by decide, sanitize_filename_idempotent ("https://host/path/name.ext?x=1") 0 0 (by decide)⟩

/-- C10: after every call to `add_log`, the log list holds at most 100
entries, the newest entry is first, and the result is a prefix of the new
entry consed onto the old list — so appending beyond 100 entries discards
the oldest entries instead of growing the list unboundedly. -/
theorem add_log_bounded (logs : List String) (timestamp message : String) :
    (add_log logs timestamp message).length ≤ 100 ∧
    (add_log logs timestamp message).head? = some (logEntry timestamp message) ∧
    (add_log logs timestamp message) <+: (logEntry timestamp message :: logs) ∧
    (add_log logs timestamp message).length = min (logs.length + 1) 100 := by
  refine ⟨?_, rfl, List.take_prefix _ _, ?_⟩
  · rw [add_log, List.length_take]
    exact Nat.min_le_left _ _
  · rw [add_log, List.length_take, List.length_cons]
    exact Nat.min_comm _ _

/-- C9: when the session does not report itself connected and authorized
(`session['session_active']` unset, the client object absent, or the client
disconnected), `_upload_file_async` fails immediately: it returns `False`
and `send_file` is never reached. -/
theorem upload_file_async_not_connected (st : TelethonState) (send : SendOutcome)
    (h : clientReady st = false) :
    (upload_file_async st send).success = false ∧
    (upload_file_async st send).sendAttempted = false := by
  simp [upload_file_async, h]

/-- Witness for C9: a fully disconnected state. -/
theorem upload_file_async_not_connected_witness :
    (upload_file_async ⟨false, false, false⟩ SendOutcome.ok).success = false ∧
    (upload_file_async ⟨false, false, false⟩ SendOutcome.ok).sendAttempted = false :=
  upload_file_async_not_connected ⟨false, false, false⟩ SendOutcome.ok (by decide)

/-!
## Orchestrator helper lemmas
-/

theorem processRows_length (st : TelethonState) (tnow : Nat) (hc : Bool)
    (fetch : Nat → FetchOutcome) (send : Nat → SendOutcome)
    (i : Nat) (rows : List CsvRow) :
    (processRows st tnow hc fetch send i rows).length = rows.length := by
  induction rows generalizing i with
  | nil => rfl
  | cons r rest ih => simp [processRows, ih]

theorem processRows_getElem (st : TelethonState) (tnow : Nat) (hc : Bool)
    (fetch : Nat → FetchOutcome) (send : Nat → SendOutcome)
    (i k : Nat) (rows : List CsvRow) (hk : k < rows.length) :
    (processRows st tnow hc fetch send i rows)[k]? =
      some (processItem st tnow hc fetch send (i + k) (rows.get ⟨k, hk⟩)) := by
  induction rows generalizing i k with
  | nil => exact absurd hk (by simp)
  | cons r rest ih =>
    cases k with
    | zero => simp [processRows]
    | succ m =>
      have hm : m < rest.length := by simpa using hk
      rw [processRows, List.getElem?_cons_succ, ih (i + 1) m hm]
      have harg : i + 1 + m = i + (m + 1) := by omega
      rw [harg]
      rfl

theorem mem_processRows {st : TelethonState} {tnow : Nat} {hc : Bool}
    {fetch : Nat → FetchOutcome} {send : Nat → SendOutcome}
    {i : Nat} {rows : List CsvRow} {t : ItemTrace}
    (h : t ∈ processRows st tnow hc fetch send i rows) :
    ∃ j row, row ∈ rows ∧ t = processItem st tnow hc fetch send j row := by
  induction rows generalizing i with
  | nil => simp [processRows] at h
  | cons r rest ih =>
    rw [processRows] at h
    rcases List.mem_cons.mp h with rfl | h
    · exact ⟨i, r, by simp, rfl⟩
    · rcases ih h with ⟨j, row, hmem, ht⟩
      exact ⟨j, row, by simp [hmem], ht⟩

theorem processItem_blank (st : TelethonState) (tnow : Nat) (hc : Bool)
    (fetch : Nat → FetchOutcome) (send : Nat → SendOutcome) (idx : Nat) {row : CsvRow}
    (h : blankLink row.link = true) :
    processItem st tnow hc fetch send idx row =
      { idx := idx, skipped := true, filename := "", fetchAttempted := false,
        fetchOk := false, publishCalled := false, uploadOk := false, caption := none } := by
  unfold processItem
  rw [h]
  rfl

theorem processItem_not_blank (st : TelethonState) (tnow : Nat) (hc : Bool)
    (fetch : Nat → FetchOutcome) (send : Nat → SendOutcome) (idx : Nat) {row : CsvRow}
    (h : blankLink row.link = false) :
    (processItem st tnow hc fetch send idx row).skipped = false ∧
    (processItem st tnow hc fetch send idx row).fetchAttempted = true ∧
    (processItem st tnow hc fetch send idx row).idx = idx := by
  unfold processItem
  rw [h]
  simp only [Bool.false_eq_true, if_false]
  cases fetch idx <;> simp
  by_cases hr : clientReady st <;> simp [hr]

theorem processItem_noclient (st : TelethonState) (tnow : Nat) (hc : Bool)
    (fetch : Nat → FetchOutcome) (send : Nat → SendOutcome) (idx : Nat) (row : CsvRow)
    (h : clientReady st = false) :
    (processItem st tnow hc fetch send idx row).publishCalled = false ∧
    (processItem st tnow hc fetch send idx row).uploadOk = false := by
  unfold processItem
  by_cases hb : blankLink row.link <;> simp [hb]
  cases fetch idx <;> simp [h]

theorem processItem_fetch_ok (st : TelethonState) (tnow : Nat) (hc : Bool)
    (fetch : Nat → FetchOutcome) (send : Nat → SendOutcome) (idx : Nat) {row : CsvRow}
    (hb : blankLink row.link = false) (hf : fetch idx = .ok) :
    (processItem st tnow hc fetch send idx row).fetchOk = true := by
  unfold processItem
  rw [hb, hf]
  simp only [Bool.false_eq_true, if_false]
  by_cases hr : clientReady st <;> simp [hr]

theorem processItem_fetch_exn (st : TelethonState) (tnow : Nat) (hc : Bool)
    (fetch : Nat → FetchOutcome) (send : Nat → SendOutcome) (idx : Nat) {row : CsvRow}
    {msg : String} (hb : blankLink row.link = false) (hf : fetch idx = .requestExn msg) :
    (processItem st tnow hc fetch send idx row).fetchOk = false ∧
    (processItem st tnow hc fetch send idx row).fetchAttempted = true ∧
    (processItem st tnow hc fetch send idx row).skipped = false := by
  unfold processItem
  rw [hb, hf]
  simp

theorem processItem_caption (st : TelethonState) (tnow : Nat) (hc : Bool)
    (fetch : Nat → FetchOutcome) (send : Nat → SendOutcome) (idx : Nat) (row : CsvRow)
    (h : (processItem st tnow hc fetch send idx row).publishCalled = true) :
    (processItem st tnow hc fetch send idx row).caption =
      some (if hc then pyStr row.caption else "") := by
  unfold processItem at *
  by_cases hb : blankLink row.link <;> simp [hb] at *
  cases hf : fetch idx <;> simp [hf] at h ⊢
  by_cases hr : clientReady st <;> simp [hr] at h ⊢

theorem chainAux (f : Nat → Rat) (n : Nat)
    (hmono : ∀ a b : Nat, a < b → f a ≤ f b)
    (hnonneg : ∀ i, 0 ≤ f i)
    (hle : ∀ i, i < n → f i ≤ 100) :
    List.Chain' (fun a b => a ≤ b)
      ((0 : Rat) :: ((List.range n).map f ++ [100])) := by
  apply List.Pairwise.chain'
  rw [List.pairwise_cons]
  constructor
  · intro b hb
    rcases List.mem_append.mp hb with hb | hb
    · rcases List.mem_map.mp hb with ⟨i, _, rfl⟩
      exact hnonneg i
    · simp at hb
      subst hb
      norm_num
  · rw [List.pairwise_append]
    refine ⟨?_, by simp, ?_⟩
    · rw [List.pairwise_map]
      exact (List.pairwise_lt_range n).imp (fun hab => hmono _ _ hab)
    · intro a ha b hb
      rcases List.mem_map.mp ha with ⟨i, hi, rfl⟩
      simp at hb
      subst hb
      exact hle i (List.mem_range.mp hi)

theorem progressList_chain (n : Nat) (hn : 0 < n) :
    List.Chain' (fun a b => a ≤ b) (progressList n) := by
  have hn0 : (0 : Rat) < n := by exact_mod_cast hn
  apply chainAux
  · intro a b hab
    gcongr
  · intro i
    apply div_nonneg (by positivity) (le_of_lt hn0)
  · intro i hi
    rw [div_le_iff₀ hn0]
    have : (i : Rat) + 1 ≤ n := by exact_mod_cast hi
    linarith

theorem progressList_mem_form (n : Nat) (hn : 0 < n) {v : Rat}
    (hv : v ∈ progressList n) :
    ∃ k : Nat, k ≤ n ∧ v = 100 * (k : Rat) / (n : Rat) := by
  have hn0 : (0 : Rat) < n := by exact_mod_cast hn
  rcases List.mem_cons.mp hv with rfl | hv
  · exact ⟨0, Nat.zero_le n, by norm_num⟩
  rcases List.mem_append.mp hv with hv | hv
  · rcases List.mem_map.mp hv with ⟨i, hi, rfl⟩
    exact ⟨i + 1, List.mem_range.mp hi, by push_cast; ring⟩
  · simp at hv
    subst hv
    refine ⟨n, le_refl n, ?_⟩
    field_simp

theorem progressList_last (n : Nat) : (progressList n).getLast? = some 100 := by
  rw [progressList, ← List.cons_append]
  exact List.getLast?_concat _

theorem progressList_head (n : Nat) : (progressList n).head? = some 0 := rfl

theorem progressList_not_neg (n : Nat) (hn : 0 < n) :
    (-1 : Rat) ∉ progressList n := by
  intro hv
  rcases progressList_mem_form n hn hv with ⟨k, _, hk⟩
  have hn0 : (0 : Rat) < n := by exact_mod_cast hn
  have h0 : (0 : Rat) ≤ 100 * (k : Rat) / (n : Rat) :=
    div_nonneg (by positivity) (le_of_lt hn0)
  rw [← hk] at h0
  norm_num at h0

theorem progressList_mem_item (n i : Nat) (hi : i < n) :
    (100 * ((i : Rat) + 1) / (n : Rat)) ∈ progressList n := by
  rw [progressList]
  exact List.mem_cons_of_mem _
    (List.mem_append_left _ (List.mem_map_of_mem _ (List.mem_range.mpr hi)))

/-- C6: when the parsed table has no column named exactly `link`, the run
fails before any item is fetched or uploaded: no loop iteration happens,
the progress is set to `-1`, the missing-required-column error is recorded,
and the orchestrator returns `False`. -/
theorem missing_link_column_fails (st : TelethonState) (tnow : Nat)
    (df : DataFrame) (fetch : Nat → FetchOutcome) (send : Nat → SendOutcome)
    (hcol : df.hasLinkCol = false) :
    (run_csv_process_async st tnow (.ok df) fetch send).retVal = false ∧
    (run_csv_process_async st tnow (.ok df) fetch send).progressTrace = [0, -1] ∧
    (run_csv_process_async st tnow (.ok df) fetch send).items = [] ∧
    (run_csv_process_async st tnow (.ok df) fetch send).runError =
      some RunError.missingLinkColumn := by
  simp [run_csv_process_async, hcol]

/-- Witness for C6: a one-row table whose only column is `caption`. -/
theorem missing_link_column_fails_witness :
    (run_csv_process_async ⟨true, true, true⟩ 0
      (.ok ⟨false, true, [⟨Cell.str ("http://h/a"), Cell.str ("c")⟩]⟩)
      (fun _ => FetchOutcome.ok) (fun _ => SendOutcome.ok)).retVal = false ∧
    (run_csv_process_async ⟨true, true, true⟩ 0
      (.ok ⟨false, true, [⟨Cell.str ("http://h/a"), Cell.str ("c")⟩]⟩)
      (fun _ => FetchOutcome.ok) (fun _ => SendOutcome.ok)).progressTrace = [0, -1] ∧
    (run_csv_process_async ⟨true, true, true⟩ 0
      (.ok ⟨false, true, [⟨Cell.str ("http://h/a"), Cell.str ("c")⟩]⟩)
      (fun _ => FetchOutcome.ok) (fun _ => SendOutcome.ok)).items = [] ∧
    (run_csv_process_async ⟨true, true, true⟩ 0
      (.ok ⟨false, true, [⟨Cell.str ("http://h/a"), Cell.str ("c")⟩]⟩)
      (fun _ => FetchOutcome.ok) (fun _ => SendOutcome.ok)).runError =
      some RunError.missingLinkColumn :=
  missing_link_column_fails ⟨true, true, true⟩ 0
    ⟨false, true, [⟨Cell.str ("http://h/a"), Cell.str ("c")⟩]⟩
    (fun _ => FetchOutcome.ok) (fun _ => SendOutcome.ok) rfl

/-- C5: a manifest that parses to a table with a `link` column but zero
data rows is a successful no-op run: the informational empty-file event is
emitted, the orchestrator returns `True`, and the progress stays at its
initial value `0` (it is never set to `-1`). -/
theorem empty_manifest_success (st : TelethonState) (tnow : Nat)
    (df : DataFrame) (fetch : Nat → FetchOutcome) (send : Nat → SendOutcome)
    (hcol : df.hasLinkCol = true) (hempty : df.rows = []) :
    (run_csv_process_async st tnow (.ok df) fetch send).retVal = true ∧
    (run_csv_process_async st tnow (.ok df) fetch send).progressTrace = [0] ∧
    (run_csv_process_async st tnow (.ok df) fetch send).emptyNotice = true ∧
    (run_csv_process_async st tnow (.ok df) fetch send).runError = none := by
  simp [run_csv_process_async, hcol, hempty]

/-- Witness for C5: a header-only table. -/
theorem empty_manifest_success_witness :
    (run_csv_process_async ⟨true, true, true⟩ 0 (.ok ⟨true, true, []⟩)
      (fun _ => FetchOutcome.ok) (fun _ => SendOutcome.ok)).retVal = true ∧
    (run_csv_process_async ⟨true, true, true⟩ 0 (.ok ⟨true, true, []⟩)
      (fun _ => FetchOutcome.ok) (fun _ => SendOutcome.ok)).progressTrace = [0] ∧
    (run_csv_process_async ⟨true, true, true⟩ 0 (.ok ⟨true, true, []⟩)
      (fun _ => FetchOutcome.ok) (fun _ => SendOutcome.ok)).emptyNotice = true ∧
    (run_csv_process_async ⟨true, true, true⟩ 0 (.ok ⟨true, true, []⟩)
      (fun _ => FetchOutcome.ok) (fun _ => SendOutcome.ok)).runError = none :=
  empty_manifest_success ⟨true, true, true⟩ 0 ⟨true, true, []⟩
    (fun _ => FetchOutcome.ok) (fun _ => SendOutcome.ok) rfl rfl

/-- Characterization of a run that reaches the processing loop
(`link` column present, at least one data row). -/
theorem run_processing (st : TelethonState) (tnow : Nat) (df : DataFrame)
    (fetch : Nat → FetchOutcome) (send : Nat → SendOutcome)
    (hcol : df.hasLinkCol = true) (hn : df.rows.length ≠ 0) :
    run_csv_process_async st tnow (.ok df) fetch send =
      { retVal := true,
        progressTrace := progressList df.rows.length,
        items := processRows st tnow df.hasCaptionCol fetch send 0 df.rows,
        successfulUploads :=
          ((processRows st tnow df.hasCaptionCol fetch send 0 df.rows).filter
            (fun t => t.uploadOk)).length,
        downloadOnlyNotice := !(clientReady st), emptyNotice := false,
        runError := none } := by
  simp [run_csv_process_async, hcol, hn]

/-- C2: a failed fetch on one item (a `requests.RequestException`, e.g. an
HTTP 404 from `raise_for_status`) is caught at the item boundary and does
not abort the batch: the run still returns `True`, the progress still ends
at `100`, every row still produces exactly one loop iteration, and the
failing item is recorded with `fetchOk = false`. -/
theorem fetch_failure_does_not_abort (st : TelethonState) (tnow : Nat)
    (df : DataFrame) (fetch : Nat → FetchOutcome) (send : Nat → SendOutcome)
    (hcol : df.hasLinkCol = true) (hne : df.rows ≠ []) :
    (run_csv_process_async st tnow (.ok df) fetch send).retVal = true ∧
    (run_csv_process_async st tnow (.ok df) fetch send).progressTrace.getLast? =
      some 100 ∧
    (run_csv_process_async st tnow (.ok df) fetch send).items.length =
      df.rows.length ∧
    (∀ (i : Nat) (hi : i < df.rows.length) (msg : String),
      fetch i = FetchOutcome.requestExn msg →
      blankLink (df.rows.get ⟨i, hi⟩).link = false →
      ∃ t, (run_csv_process_async st tnow (.ok df) fetch send).items[i]? = some t ∧
        t.skipped = false ∧ t.fetchAttempted = true ∧ t.fetchOk = false) := by
  have hn : df.rows.length ≠ 0 := by simpa [List.length_eq_zero] using hne
  rw [run_processing st tnow df fetch send hcol hn]
  refine ⟨rfl, progressList_last _, processRows_length _ _ _ _ _ _ _, ?_⟩
  intro i hi msg hf hb
  refine ⟨processItem st tnow df.hasCaptionCol fetch send i (df.rows.get ⟨i, hi⟩), ?_, ?_, ?_, ?_⟩
  · simpa using processRows_getElem st tnow df.hasCaptionCol fetch send 0 i df.rows hi
  · exact (processItem_fetch_exn st tnow df.hasCaptionCol fetch send i hb hf).2.2
  · exact (processItem_fetch_exn st tnow df.hasCaptionCol fetch send i hb hf).2.1
  · exact (processItem_fetch_exn st tnow df.hasCaptionCol fetch send i hb hf).1

/-- C3: a row whose `link` cell is not a string or is blank after trimming
is skipped — no fetch, no publish, no success counted — but it still counts
as processed: the loop still runs once for it, its progress write
`100 * (i+1) / n` still appears in the trace, the run still ends at `100`
with one `ItemTrace` per row, and every non-blank row is still fetched. -/
theorem blank_link_row_skipped (st : TelethonState) (tnow : Nat)
    (df : DataFrame) (fetch : Nat → FetchOutcome) (send : Nat → SendOutcome)
    (i : Nat) (hcol : df.hasLinkCol = true) (hi : i < df.rows.length)
    (hblank : blankLink (df.rows.get ⟨i, hi⟩).link = true) :
    (run_csv_process_async st tnow (.ok df) fetch send).retVal = true ∧
    (run_csv_process_async st tnow (.ok df) fetch send).items.length =
      df.rows.length ∧
    (run_csv_process_async st tnow (.ok df) fetch send).items[i]? =
      some { idx := i, skipped := true, filename := "",
             fetchAttempted := false, fetchOk := false, publishCalled := false,
             uploadOk := false, caption := none } ∧
    (100 * ((i : Rat) + 1) / (df.rows.length : Rat)) ∈
      (run_csv_process_async st tnow (.ok df) fetch send).progressTrace ∧
    (run_csv_process_async st tnow (.ok df) fetch send).progressTrace.getLast? =
      some 100 ∧
    (∀ (j : Nat) (hj : j < df.rows.length),
      blankLink (df.rows.get ⟨j, hj⟩).link = false →
      ∃ t, (run_csv_process_async st tnow (.ok df) fetch send).items[j]? = some t ∧
        t.skipped = false ∧ t.fetchAttempted = true) := by
  have hn : df.rows.length ≠ 0 := by omega
  rw [run_processing st tnow df fetch send hcol hn]
  refine ⟨rfl, processRows_length _ _ _ _ _ _ _, ?_, ?_, progressList_last _, ?_⟩
  · have hg := processRows_getElem st tnow df.hasCaptionCol fetch send 0 i df.rows hi
    rw [Nat.zero_add] at hg
    rw [hg, processItem_blank st tnow df.hasCaptionCol fetch send i hblank]
  · exact progressList_mem_item _ i hi
  · intro j hj hb
    refine ⟨processItem st tnow df.hasCaptionCol fetch send j (df.rows.get ⟨j, hj⟩), ?_, ?_, ?_⟩
    · simpa using processRows_getElem st tnow df.hasCaptionCol fetch send 0 j df.rows hj
    · exact (processItem_not_blank st tnow df.hasCaptionCol fetch send j hb).1
    · exact (processItem_not_blank st tnow df.hasCaptionCol fetch send j hb).2.1

/-- C7: with no authenticated session at the start of a run
(`clientReady st = false`), the orchestrator enters download-only mode: the
one-time informational notice is emitted, every valid row is fetched, no
upload is ever attempted, and the run ends successfully at progress `100`
with zero successful uploads. -/
theorem download_only_mode (st : TelethonState) (tnow : Nat)
    (df : DataFrame) (fetch : Nat → FetchOutcome) (send : Nat → SendOutcome)
    (hready : clientReady st = false) (hcol : df.hasLinkCol = true)
    (hne : df.rows ≠ [])
    (hvalid : ∀ row ∈ df.rows, blankLink row.link = false)
    (hfetch : ∀ i : Nat, fetch i = FetchOutcome.ok) :
    (run_csv_process_async st tnow (.ok df) fetch send).retVal = true ∧
    (run_csv_process_async st tnow (.ok df) fetch send).downloadOnlyNotice = true ∧
    (run_csv_process_async st tnow (.ok df) fetch send).progressTrace.getLast? =
      some 100 ∧
    (run_csv_process_async st tnow (.ok df) fetch send).items.length =
      df.rows.length ∧
    (∀ t ∈ (run_csv_process_async st tnow (.ok df) fetch send).items,
      t.skipped = false ∧ t.fetchOk = true ∧
      t.publishCalled = false ∧ t.uploadOk = false) ∧
    (run_csv_process_async st tnow (.ok df) fetch send).successfulUploads = 0 := by
  have hn : df.rows.length ≠ 0 := by simpa [List.length_eq_zero] using hne
  rw [run_processing st tnow df fetch send hcol hn]
  have hitem : ∀ t ∈ processRows st tnow df.hasCaptionCol fetch send 0 df.rows,
      t.skipped = false ∧ t.fetchOk = true ∧
      t.publishCalled = false ∧ t.uploadOk = false := by
    intro t ht
    rcases mem_processRows ht with ⟨j, row, hrow, rfl⟩
    have hb := hvalid row hrow
    refine ⟨(processItem_not_blank st tnow df.hasCaptionCol fetch send j hb).1,
      processItem_fetch_ok st tnow df.hasCaptionCol fetch send j hb (hfetch j),
      (processItem_noclient st tnow df.hasCaptionCol fetch send j row hready).1,
      (processItem_noclient st tnow df.hasCaptionCol fetch send j row hready).2⟩
  refine ⟨rfl, by simp [hready], progressList_last _,
    processRows_length _ _ _ _ _ _ _, hitem, ?_⟩
  have hfil : (processRows st tnow df.hasCaptionCol fetch send 0 df.rows).filter
      (fun t => t.uploadOk) = [] := by
    rw [List.filter_eq_nil_iff]
    intro t ht
    simp [(hitem t ht).2.2.2]
  simp [hfil]

/-- C4 counterexample: the claim "the caption used for a publish is the
empty string whenever the caption column is absent or the cell is not
textual" is false on the code.  For a manifest whose `caption` column
exists but whose cell is non-textual (an empty cell, which pandas reads as
`NaN` and Python renders as `str(float('nan')) = "nan"`), the publish is
called with caption `"nan"`, not `""`. -/
theorem caption_nonstring_counterexample :
    (run_csv_process_async ⟨true, true, true⟩ 0
      (.ok ⟨true, true, [⟨Cell.str ("http://h/a.bin"), Cell.nonStr ("nan")⟩]⟩)
      (fun _ => FetchOutcome.ok) (fun _ => SendOutcome.ok)).items.map
        (fun t => (t.publishCalled, t.caption)) = [(true, some ("nan"))] ∧
    ¬ (∀ t ∈ (run_csv_process_async ⟨true, true, true⟩ 0
      (.ok ⟨true, true, [⟨Cell.str ("http://h/a.bin"), Cell.nonStr ("nan")⟩]⟩)
      (fun _ => FetchOutcome.ok) (fun _ => SendOutcome.ok)).items,
        t.publishCalled = true → t.caption = some ("")) := by
  constructor
  · decide
  · decide

/-- C4 amended: the caption used for a row's publish is the empty string
whenever the `caption` column is absent; when the column is present, the
caption is the Python `str()` rendering of the row's cell — which for a
non-textual cell (e.g. `NaN` for an empty cell) is that rendering
(`"nan"`), not the empty string. -/
theorem caption_default_amended (st : TelethonState) (tnow : Nat) (df : DataFrame)
    (fetch : Nat → FetchOutcome) (send : Nat → SendOutcome) :
    (df.hasCaptionCol = false →
      ∀ t ∈ (run_csv_process_async st tnow (.ok df) fetch send).items,
        t.publishCalled = true → t.caption = some ("")) ∧
    (∀ (i : Nat) (hi : i < df.rows.length) (t : ItemTrace),
      (run_csv_process_async st tnow (.ok df) fetch send).items[i]? = some t →
      t.publishCalled = true →
      t.caption = some (if df.hasCaptionCol then pyStr ((df.rows.get ⟨i, hi⟩).caption)
        else "")) := by
  by_cases hcol : df.hasLinkCol = true
  · by_cases hn : df.rows.length = 0
    · have hitems : (run_csv_process_async st tnow (.ok df) fetch send).items = [] := by
        simp [run_csv_process_async, hcol, hn]
      constructor
      · intro _ t ht _
        rw [hitems] at ht
        simp at ht
      · intro i hi t ht
        rw [hitems] at ht
        simp at ht
    · rw [run_processing st tnow df fetch send hcol hn]
      constructor
      · intro hcap t ht hpub
        rcases mem_processRows ht with ⟨j, row, _, rfl⟩
        rw [processItem_caption st tnow df.hasCaptionCol fetch send j row hpub]
        simp [hcap]
      · intro i hi t ht hpub
        have hg := processRows_getElem st tnow df.hasCaptionCol fetch send 0 i df.rows hi
        rw [Nat.zero_add] at hg
        rw [hg] at ht
        injection ht with ht
        subst ht
        exact processItem_caption st tnow df.hasCaptionCol fetch send i _ hpub
  · have hcol2 : df.hasLinkCol = false := Bool.not_eq_true _ ▸ Bool.eq_false_iff.mpr hcol
    have hitems : (run_csv_process_async st tnow (.ok df) fetch send).items = [] := by
      simp [run_csv_process_async, hcol2]
    constructor
    · intro _ t ht _
      rw [hitems] at ht
      simp at ht
    · intro i hi t ht
      rw [hitems] at ht
      simp at ht

/-- C1: for every run of the batch orchestrator, the overall progress
indicator starts at `0`; on a failed run the write sequence is exactly
`[0, -1]`, so `-1` appears only on a parse/missing-column error, is the
last write (terminal), and coincides with a recorded run error; on a
successful run the writes are non-decreasing, never `-1`, all of the form
`100 * k / n` for `k ≤ n` (with `n` the number of items, or `1` for the
empty no-op run whose only write is `0`), and a run that processed at
least one item ends at exactly `100`. -/
theorem overall_progress_invariant (st : TelethonState) (tnow : Nat)
    (parse : Except String DataFrame)
    (fetch : Nat → FetchOutcome) (send : Nat → SendOutcome) :
    (run_csv_process_async st tnow parse fetch send).progressTrace.head? = some 0 ∧
    ((run_csv_process_async st tnow parse fetch send).retVal = false →
      (run_csv_process_async st tnow parse fetch send).progressTrace = [0, -1] ∧
      (run_csv_process_async st tnow parse fetch send).runError.isSome = true) ∧
    ((-1 : Rat) ∈ (run_csv_process_async st tnow parse fetch send).progressTrace →
      (run_csv_process_async st tnow parse fetch send).retVal = false ∧
      (run_csv_process_async st tnow parse fetch send).progressTrace.getLast? =
        some (-1)) ∧
    ((run_csv_process_async st tnow parse fetch send).retVal = true →
      List.Chain' (fun a b => a ≤ b)
        (run_csv_process_async st tnow parse fetch send).progressTrace ∧
      (-1 : Rat) ∉ (run_csv_process_async st tnow parse fetch send).progressTrace ∧
      (∀ v ∈ (run_csv_process_async st tnow parse fetch send).progressTrace,
        ∃ k : Nat,
          k ≤ max (run_csv_process_async st tnow parse fetch send).items.length 1 ∧
          v = 100 * (k : Rat) /
            ((max (run_csv_process_async st tnow parse fetch send).items.length 1 : Nat) : Rat)) ∧
      ((run_csv_process_async st tnow parse fetch send).items ≠ [] →
        (run_csv_process_async st tnow parse fetch send).progressTrace.getLast? =
          some 100)) := by
  have hfail : ∀ (r : RunResult), r.progressTrace = [0, -1] → r.retVal = false →
      r.runError.isSome = true →
      r.progressTrace.head? = some 0 ∧
      (r.retVal = false → r.progressTrace = [0, -1] ∧ r.runError.isSome = true) ∧
      ((-1 : Rat) ∈ r.progressTrace → r.retVal = false ∧
        r.progressTrace.getLast? = some (-1)) ∧
      (r.retVal = true →
        List.Chain' (fun a b => a ≤ b) r.progressTrace ∧
        (-1 : Rat) ∉ r.progressTrace ∧
        (∀ v ∈ r.progressTrace, ∃ k : Nat, k ≤ max r.items.length 1 ∧
          v = 100 * (k : Rat) / ((max r.items.length 1 : Nat) : Rat)) ∧
        (r.items ≠ [] → r.progressTrace.getLast? = some 100)) := by
    intro r htr hret herr
    refine ⟨by rw [htr]; rfl, fun _ => ⟨htr, herr⟩, fun _ => ⟨hret, by rw [htr]; rfl⟩, ?_⟩
    intro h
    rw [hret] at h
    exact absurd h (by simp)
  cases parse with
  | error msg => exact hfail _ rfl rfl rfl
  | ok df =>
    by_cases hcol : df.hasLinkCol = true
    · by_cases hn : df.rows.length = 0
      · -- empty manifest: trace = [0]
        have hr : run_csv_process_async st tnow (.ok df) fetch send =
            { retVal := true, progressTrace := [0], items := [],
              successfulUploads := 0, downloadOnlyNotice := !(clientReady st),
              emptyNotice := true, runError := none } := by
          simp [run_csv_process_async, hcol, hn]
        rw [hr]
        refine ⟨rfl, by simp, ?_, ?_⟩
        · intro hmem
          rw [List.mem_singleton] at hmem
          exact absurd hmem (by norm_num)
        · intro _
          refine ⟨List.chain'_singleton _, by norm_num, ?_, by simp⟩
          intro v hv
          simp at hv
          subst hv
          exact ⟨0, by simp, by norm_num⟩
      · rw [run_processing st tnow df fetch send hcol hn]
        have hpos : 0 < df.rows.length := Nat.pos_of_ne_zero hn
        have hlen : (processRows st tnow df.hasCaptionCol fetch send 0 df.rows).length =
            df.rows.length := processRows_length _ _ _ _ _ _ _
        have hmax : max (processRows st tnow df.hasCaptionCol fetch send 0 df.rows).length 1 =
            df.rows.length := by
          rw [hlen]
          exact Nat.max_eq_left hpos
        refine ⟨progressList_head _, by simp, ?_, ?_⟩
        · intro hmem
          exact absurd hmem (progressList_not_neg _ hpos)
        · intro _
          refine ⟨progressList_chain _ hpos, progressList_not_neg _ hpos, ?_,
            fun _ => progressList_last _⟩
          intro v hv
          rcases progressList_mem_form _ hpos hv with ⟨k, hk, hkv⟩
          exact ⟨k, by rw [hmax]; exact hk, by rw [hmax]; exact hkv⟩
    · have hcol2 : df.hasLinkCol = false := by
        rcases Bool.eq_false_or_eq_true df.hasLinkCol with h | h
        · exact absurd h hcol
        · exact h
      have hr : run_csv_process_async st tnow (.ok df) fetch send =
          { retVal := false, progressTrace := [0, -1], items := [],
            successfulUploads := 0, downloadOnlyNotice := !(clientReady st),
            emptyNotice := false, runError := some RunError.missingLinkColumn } := by
        simp [run_csv_process_async, hcol2]
      rw [hr]
      exact hfail _ rfl rfl rfl

/-- Witness for C2: two rows, the first fetch fails with an HTTP 404. -/
theorem fetch_failure_does_not_abort_witness :
    (run_csv_process_async ⟨true, true, true⟩ 0
      (.ok ⟨true, false, [⟨Cell.str ("http://h/a"), Cell.str ("")⟩,
        ⟨Cell.str ("http://h/b"), Cell.str ("")⟩]⟩)
      (fun i => if i = 0 then FetchOutcome.requestExn ("404") else FetchOutcome.ok)
      (fun _ => SendOutcome.ok)).retVal = true ∧
    (run_csv_process_async ⟨true, true, true⟩ 0
      (.ok ⟨true, false, [⟨Cell.str ("http://h/a"), Cell.str ("")⟩,
        ⟨Cell.str ("http://h/b"), Cell.str ("")⟩]⟩)
      (fun i => if i = 0 then FetchOutcome.requestExn ("404") else FetchOutcome.ok)
      (fun _ => SendOutcome.ok)).progressTrace.getLast? = some 100 ∧
    (run_csv_process_async ⟨true, true, true⟩ 0
      (.ok ⟨true, false, [⟨Cell.str ("http://h/a"), Cell.str ("")⟩,
        ⟨Cell.str ("http://h/b"), Cell.str ("")⟩]⟩)
      (fun i => if i = 0 then FetchOutcome.requestExn ("404") else FetchOutcome.ok)
      (fun _ => SendOutcome.ok)).items.length = 2 ∧
    (∃ t, (run_csv_process_async ⟨true, true, true⟩ 0
      (.ok ⟨true, false, [⟨Cell.str ("http://h/a"), Cell.str ("")⟩,
        ⟨Cell.str ("http://h/b"), Cell.str ("")⟩]⟩)
      (fun i => if i = 0 then FetchOutcome.requestExn ("404") else FetchOutcome.ok)
      (fun _ => SendOutcome.ok)).items[0]? = some t ∧
      t.skipped = false ∧ t.fetchAttempted = true ∧ t.fetchOk = false) := by
  have h := fetch_failure_does_not_abort ⟨true, true, true⟩ 0
    ⟨true, false, [⟨Cell.str ("http://h/a"), Cell.str ("")⟩,
      ⟨Cell.str ("http://h/b"), Cell.str ("")⟩]⟩
    (fun i => if i = 0 then FetchOutcome.requestExn ("404") else FetchOutcome.ok)
    (fun _ => SendOutcome.ok) rfl (by decide)
  exact ⟨h.1, h.2.1, by rw [h.2.2.1]; rfl, h.2.2.2 0 (by decide) ("404") rfl (by decide)⟩

/-- Witness for C3: the spec scenario — 3 rows, row 2 blank. -/
theorem blank_link_row_skipped_witness :
    (run_csv_process_async ⟨true, true, true⟩ 0
      (.ok ⟨true, false, [⟨Cell.str ("http://h/a"), Cell.str ("")⟩,
        ⟨Cell.str (" "), Cell.str ("")⟩,
        ⟨Cell.str ("http://h/b"), Cell.str ("")⟩]⟩)
      (fun _ => FetchOutcome.ok) (fun _ => SendOutcome.ok)).retVal = true ∧
    (run_csv_process_async ⟨true, true, true⟩ 0
      (.ok ⟨true, false, [⟨Cell.str ("http://h/a"), Cell.str ("")⟩,
        ⟨Cell.str (" "), Cell.str ("")⟩,
        ⟨Cell.str ("http://h/b"), Cell.str ("")⟩]⟩)
      (fun _ => FetchOutcome.ok) (fun _ => SendOutcome.ok)).items.length = 3 ∧
    (run_csv_process_async ⟨true, true, true⟩ 0
      (.ok ⟨true, false, [⟨Cell.str ("http://h/a"), Cell.str ("")⟩,
        ⟨Cell.str (" "), Cell.str ("")⟩,
        ⟨Cell.str ("http://h/b"), Cell.str ("")⟩]⟩)
      (fun _ => FetchOutcome.ok) (fun _ => SendOutcome.ok)).items[1]? =
      some { idx := 1, skipped := true, filename := "",
             fetchAttempted := false, fetchOk := false, publishCalled := false,
             uploadOk := false, caption := none } ∧
    (100 * ((1 : Rat) + 1) / ((3 : Nat) : Rat)) ∈
      (run_csv_process_async ⟨true, true, true⟩ 0
      (.ok ⟨true, false, [⟨Cell.str ("http://h/a"), Cell.str ("")⟩,
        ⟨Cell.str (" "), Cell.str ("")⟩,
        ⟨Cell.str ("http://h/b"), Cell.str ("")⟩]⟩)
      (fun _ => FetchOutcome.ok) (fun _ => SendOutcome.ok)).progressTrace ∧
    (run_csv_process_async ⟨true, true, true⟩ 0
      (.ok ⟨true, false, [⟨Cell.str ("http://h/a"), Cell.str ("")⟩,
        ⟨Cell.str (" "), Cell.str ("")⟩,
        ⟨Cell.str ("http://h/b"), Cell.str ("")⟩]⟩)
      (fun _ => FetchOutcome.ok) (fun _ => SendOutcome.ok)).progressTrace.getLast? =
      some 100 ∧
    (∃ t, (run_csv_process_async ⟨true, true, true⟩ 0
      (.ok ⟨true, false, [⟨Cell.str ("http://h/a"), Cell.str ("")⟩,
        ⟨Cell.str (" "), Cell.str ("")⟩,
        ⟨Cell.str ("http://h/b"), Cell.str ("")⟩]⟩)
      (fun _ => FetchOutcome.ok) (fun _ => SendOutcome.ok)).items[0]? = some t ∧
      t.skipped = false ∧ t.fetchAttempted = true) ∧
    (∃ t, (run_csv_process_async ⟨true, true, true⟩ 0
      (.ok ⟨true, false, [⟨Cell.str ("http://h/a"), Cell.str ("")⟩,
        ⟨Cell.str (" "), Cell.str ("")⟩,
        ⟨Cell.str ("http://h/b"), Cell.str ("")⟩]⟩)
      (fun _ => FetchOutcome.ok) (fun _ => SendOutcome.ok)).items[2]? = some t ∧
      t.skipped = false ∧ t.fetchAttempted = true) := by
  have h := blank_link_row_skipped ⟨true, true, true⟩ 0
    ⟨true, false, [⟨Cell.str ("http://h/a"), Cell.str ("")⟩,
      ⟨Cell.str (" "), Cell.str ("")⟩,
      ⟨Cell.str ("http://h/b"), Cell.str ("")⟩]⟩
    (fun _ => FetchOutcome.ok) (fun _ => SendOutcome.ok) 1 rfl (by decide) (by decide)
  exact ⟨h.1, by rw [h.2.1]; rfl, h.2.2.1, h.2.2.2.1, h.2.2.2.2.1,
    h.2.2.2.2.2 0 (by decide) (by decide), h.2.2.2.2.2 2 (by decide) (by decide)⟩

/-- Witness for C7: disconnected state, two valid rows. -/
theorem download_only_mode_witness :
    (run_csv_process_async ⟨false, false, false⟩ 0
      (.ok ⟨true, false, [⟨Cell.str ("http://h/a"), Cell.str ("")⟩,
        ⟨Cell.str ("http://h/b"), Cell.str ("")⟩]⟩)
      (fun _ => FetchOutcome.ok) (fun _ => SendOutcome.ok)).retVal = true ∧
    (run_csv_process_async ⟨false, false, false⟩ 0
      (.ok ⟨true, false, [⟨Cell.str ("http://h/a"), Cell.str ("")⟩,
        ⟨Cell.str ("http://h/b"), Cell.str ("")⟩]⟩)
      (fun _ => FetchOutcome.ok) (fun _ => SendOutcome.ok)).downloadOnlyNotice = true ∧
    (run_csv_process_async ⟨false, false, false⟩ 0
      (.ok ⟨true, false, [⟨Cell.str ("http://h/a"), Cell.str ("")⟩,
        ⟨Cell.str ("http://h/b"), Cell.str ("")⟩]⟩)
      (fun _ => FetchOutcome.ok) (fun _ => SendOutcome.ok)).progressTrace.getLast? =
      some 100 ∧
    (run_csv_process_async ⟨false, false, false⟩ 0
      (.ok ⟨true, false, [⟨Cell.str ("http://h/a"), Cell.str ("")⟩,
        ⟨Cell.str ("http://h/b"), Cell.str ("")⟩]⟩)
      (fun _ => FetchOutcome.ok) (fun _ => SendOutcome.ok)).items.length = 2 ∧
    (run_csv_process_async ⟨false, false, false⟩ 0
      (.ok ⟨true, false, [⟨Cell.str ("http://h/a"), Cell.str ("")⟩,
        ⟨Cell.str ("http://h/b"), Cell.str ("")⟩]⟩)
      (fun _ => FetchOutcome.ok) (fun _ => SendOutcome.ok)).successfulUploads = 0 := by
  have h := download_only_mode ⟨false, false, false⟩ 0
    ⟨true, false, [⟨Cell.str ("http://h/a"), Cell.str ("")⟩,
      ⟨Cell.str ("http://h/b"), Cell.str ("")⟩]⟩
    (fun _ => FetchOutcome.ok) (fun _ => SendOutcome.ok)
    rfl rfl (by decide) (by decide) (fun _ => rfl)
  exact ⟨h.1, h.2.1, h.2.2.1, by rw [h.2.2.2.1]; rfl, h.2.2.2.2.2⟩

end WebApp
